import Mathlib

/-!
Verification of the disentangle-network Python SDK (`disentangle_sdk`),
shallowly embedded in Lean 4.  The embedding follows
`src/disentangle_sdk/client.py`, `exceptions.py` and `types.py`:

* JSON values are modelled by the inductive `JsonVal`; Python `dict.get`
  becomes `pyGet` / `pyGetD`.
* The outcome of one HTTP exchange as seen by `DisentangleAgent._request`
  is `HttpOutcome`: either a completed response (status code plus a body
  that either decodes to JSON or fails to decode) or a transport fault
  (httpx ConnectError, TimeoutException, or other HTTPError).
* A Python call either returns a value, raises one of the SDK's typed
  exceptions, or lets an unclassified Python exception escape; this is
  the `PyResult` type.
* `request` is the embedding of `DisentangleAgent._request`.
-/

namespace DisentangleSdk

/-- JSON values.  Numbers keep the int/float distinction that Python's
`json.loads` makes; floats are modelled as rationals. -/
inductive JsonVal where
  | str : String → JsonVal
  | int : Int → JsonVal
  | num : ℚ → JsonVal
  | bool : Bool → JsonVal
  | nul : JsonVal
  | arr : List JsonVal → JsonVal
  | obj : List (String × JsonVal) → JsonVal


/-- Python `d.get(k)`: the value under the first occurrence of key `k`
when the value is an object holding that key, otherwise `none`. -/
def pyGet (j : JsonVal) (k : String) : Option JsonVal :=
  match j with
  | .obj kvs => (kvs.find? (fun kv => kv.1 == k)).map (·.2)
  | _ => none

/-- Python `d.get(k, default)`. -/
def pyGetD (j : JsonVal) (k : String) (d : JsonVal) : JsonVal :=
  (pyGet j k).getD d

/-- A transport-level fault, split by the `except` clauses of `_request`
(httpx exception classes): connect failure, timeout, other HTTP error. -/
inductive TransportFault where
  | connect : String → TransportFault
  | timeout : String → TransportFault
  | other : String → TransportFault


/-- One completed or failed HTTP exchange, as observed by `_request`:
either a response with a status code and a body (`some j` when the body
JSON-decodes to `j`, `none` when `response.json()` would fail), or a
transport fault. -/
inductive HttpOutcome where
  | response : Nat → Option JsonVal → HttpOutcome
  | fault : TransportFault → HttpOutcome


/-- The SDK's typed exceptions (`exceptions.py`).  Messages built from a
response body keep their JSON shape, since Python passes the raw
`.get("error", ...)` value to the exception constructor. -/
inductive SdkError where
  | disentangle : JsonVal → SdkError
  | didNotFound : JsonVal → SdkError
  | capabilityDenied : JsonVal → Option JsonVal → SdkError
  | nodeConnection : String → SdkError
  | notRegistered : String → SdkError


/-- Result of running a Python call: a normal return, one of the SDK's
typed exceptions, or an unclassified Python exception escaping (named by
its class, e.g. a `json.JSONDecodeError`). -/
inductive PyResult (α : Type) where
  | ok : α → PyResult α
  | sdkErr : SdkError → PyResult α
  | pyExc : String → PyResult α


/-- Sequencing: typed exceptions and unclassified exceptions propagate. -/
def PyResult.bind : PyResult α → (α → PyResult β) → PyResult β
  | .ok a, f => f a
  | .sdkErr e, _ => .sdkErr e
  | .pyExc e, _ => .pyExc e

@[simp] theorem PyResult.bind_ok (a : α) (f : α → PyResult β) :
    PyResult.bind (.ok a) f = f a := rfl

@[simp] theorem PyResult.bind_sdkErr (e : SdkError) (f : α → PyResult β) :
    PyResult.bind (.sdkErr e) f = .sdkErr e := rfl

@[simp] theorem PyResult.bind_pyExc (e : String) (f : α → PyResult β) :
    PyResult.bind (.pyExc e) f = .pyExc e := rfl

/-- httpx `response.is_success`: status in the 2xx range. -/
def isSuccess (status : Nat) : Bool :=
  200 ≤ status && status < 300

/-- Evaluating `response.json()`: the decoded body, or a
`json.JSONDecodeError` escaping when the body does not decode (that
exception class is not an `httpx.HTTPError`, so no `except` clause of
`_request` catches it). -/
def withJson (body : Option JsonVal) (f : JsonVal → PyResult α) : PyResult α :=
  match body with
  | some j => f j
  | none => .pyExc "json.JSONDecodeError"

/-- The `except` clauses of `_request`, in order: `httpx.ConnectError`,
`httpx.TimeoutException`, `httpx.HTTPError`, each re-raised as
`NodeConnectionError` with the corresponding message prefix. -/
def classifyFault : TransportFault → SdkError
  | .connect m => .nodeConnection ("Cannot connect to node: " ++ m)
  | .timeout m => .nodeConnection ("Request timeout: " ++ m)
  | .other m => .nodeConnection ("HTTP error: " ++ m)

/-- Embedding of `DisentangleAgent._request` (client.py lines 78-109),
as a function of the outcome of the one HTTP exchange it performs:
status 404, 403 and 400 are checked in that order, then any other
non-2xx status, and otherwise the decoded JSON body is returned. -/
def request (out : HttpOutcome) : PyResult JsonVal :=
  match out with
  | .fault f => .sdkErr (classifyFault f)
  | .response status body =>
    if status = 404 then
      withJson body fun j =>
        .sdkErr (.didNotFound (pyGetD j "error" (.str "Not found")))
    else if status = 403 then
      withJson body fun j =>
        .sdkErr (.capabilityDenied (pyGetD j "error" (.str "Forbidden"))
          (pyGet j "coherence_score"))
    else if status = 400 then
      withJson body fun j =>
        .sdkErr (.disentangle (pyGetD j "error" (.str "Bad request")))
    else if ¬ isSuccess status then
      withJson body fun j =>
        .sdkErr (.disentangle (pyGetD j "error" (.str ("HTTP " ++ toString status))))
    else
      withJson body .ok

/-- `types.py` `AgentIdentity` (pydantic): `did : str`,
`signing_key_hex : str`, `document : dict`. -/
structure AgentIdentity where
  did : String
  signing_key_hex : String
  document : JsonVal

/-- `types.py` `CapabilityHandle` (pydantic): `capability_id_hex : str`,
`capability : dict`. -/
structure CapabilityHandle where
  capability_id_hex : String
  capability : JsonVal

/-- `types.py` `CoherenceReport` (pydantic). -/
structure CoherenceReport where
  did : String
  topological_mass : ℚ
  mean_local_curvature : ℚ
  relational_diversity : Int
  temporal_depth : Int
  composite_score : ℚ
  decayed_mass : ℚ

/-- pydantic `str` field validation: accepts a JSON string. -/
def asStr : JsonVal → Option String
  | .str s => some s
  | _ => none

/-- pydantic `float` field validation in lax mode: accepts a JSON float
or int (ints are coerced to float). -/
def asFloat : JsonVal → Option ℚ
  | .num q => some q
  | .int n => some (n : ℚ)
  | _ => none

/-- pydantic `int` field validation in lax mode: accepts a JSON int, or
a float with no fractional part. -/
def asInt : JsonVal → Option Int
  | .int n => some n
  | .num q => if q.den = 1 then some q.num else none
  | _ => none

/-- pydantic `dict` field validation: accepts a JSON object. -/
def asObj : JsonVal → Option JsonVal
  | .obj kvs => some (.obj kvs)
  | _ => none

/-- `AgentIdentity(**response)`: validates the three declared fields
(extra keys are ignored); any missing or ill-typed field makes the
constructor raise. -/
def parseAgentIdentity (j : JsonVal) : Option AgentIdentity :=
  match (pyGet j "did").bind asStr,
        (pyGet j "signing_key_hex").bind asStr,
        (pyGet j "document").bind asObj with
  | some d, some sk, some doc => some ⟨d, sk, doc⟩
  | _, _, _ => none

/-- `CapabilityHandle(**response)`. -/
def parseCapabilityHandle (j : JsonVal) : Option CapabilityHandle :=
  match (pyGet j "capability_id_hex").bind asStr,
        (pyGet j "capability").bind asObj with
  | some cid, some c => some ⟨cid, c⟩
  | _, _ => none

/-- `CoherenceReport(**profile)`. -/
def parseCoherenceReport (j : JsonVal) : Option CoherenceReport :=
  match (pyGet j "did").bind asStr,
        (pyGet j "topological_mass").bind asFloat,
        (pyGet j "mean_local_curvature").bind asFloat,
        (pyGet j "relational_diversity").bind asInt,
        (pyGet j "temporal_depth").bind asInt,
        (pyGet j "composite_score").bind asFloat,
        (pyGet j "decayed_mass").bind asFloat with
  | some d, some tm, some mlc, some rd, some td, some cs, some dm =>
      some ⟨d, tm, mlc, rd, td, cs, dm⟩
  | _, _, _, _, _, _, _ => none

/-- Turn a pydantic validation result into the call outcome: validation
failure raises an unclassified `pydantic.ValidationError`. -/
def pydantic (p : JsonVal → Option α) (j : JsonVal) : PyResult α :=
  match p j with
  | some a => .ok a
  | none => .pyExc "pydantic.ValidationError"

/-- The mutable session state of a `DisentangleAgent`: `_identity` and
`_signing_key_hex`, both `None` at construction (client.py lines 38-40). -/
structure Client where
  identity : Option AgentIdentity
  signing_key_hex : Option String

/-- `DisentangleAgent.__init__`: the session slots start empty. -/
def initClient : Client :=
  { identity := none, signing_key_hex := none }

/-- The `is_registered` property: `self._identity is not None`. -/
def Client.is_registered (c : Client) : Bool :=
  c.identity.isSome

/-- One HTTP request as built by `_request`'s caller: method, path,
optional JSON body, optional query parameters. -/
structure Request where
  method : String
  path : String
  body : Option JsonVal
  params : Option JsonVal

/-- The remote node (and transport), as an oracle assigning an exchange
outcome to each request. -/
def Node : Type := Request → HttpOutcome

/-- The message of every `NotRegisteredError` raised by the client. -/
def notRegisteredMsg : String :=
  "Agent is not registered. Call register() first."

/-- Python `None`-or-string serialized into JSON. -/
def optStrJson : Option String → JsonVal
  | some s => .str s
  | none => .nul

/-- The registration gate shared by every identity-scoped method:
`if not self.is_registered: raise NotRegisteredError(...)`.  When the
gate fails, no payload is built and no request is issued (empty request
log); otherwise the method body runs with the stored identity. -/
def guard (c : Client) (k : AgentIdentity → PyResult α × List Request) :
    PyResult α × List Request :=
  match c.identity with
  | none => (.sdkErr (.notRegistered notRegisteredMsg), [])
  | some ident => k ident

/-- `self._request(...)` followed by unwrapping of the decoded body;
the issued request is logged. -/
def call (node : Node) (req : Request) (unwrap : JsonVal → PyResult α) :
    PyResult α × List Request :=
  ((request (node req)).bind unwrap, [req])

/-- The payload built by `register`: `agent_type` always, plus
`runtime_attestation` only when it is not `None`. -/
def registerPayload (agent_type : String) (runtime_attestation : Option String) : JsonVal :=
  match runtime_attestation with
  | none => .obj [("agent_type", .str agent_type)]
  | some r => .obj [("agent_type", .str agent_type), ("runtime_attestation", .str r)]

/-- The request issued by `register`. -/
def registerRequest (agent_type : String) (runtime_attestation : Option String) : Request :=
  { method := "POST", path := "/identity/register",
    body := some (registerPayload agent_type runtime_attestation), params := none }

/-- The state-mutating tail of `register` (client.py lines 140-146) as a
function of the exchange outcome: on a decoded 2xx body that validates
as `AgentIdentity`, both session slots are overwritten (the signing key
comes from `response["signing_key_hex"]`, the same field the validated
identity holds); on any error — classified or not — the session state is
left untouched. -/
def registerStep (c : Client) (out : HttpOutcome) : Client × PyResult AgentIdentity :=
  match request out with
  | .ok j =>
    match parseAgentIdentity j with
    | some ident =>
        ({ identity := some ident, signing_key_hex := some ident.signing_key_hex },
         .ok ident)
    | none => (c, .pyExc "pydantic.ValidationError")
  | .sdkErr e => (c, .sdkErr e)
  | .pyExc e => (c, .pyExc e)

/-- `register`: build the payload, perform the exchange, mutate the
session state per `registerStep`. -/
def register (c : Client) (node : Node) (agent_type : String)
    (runtime_attestation : Option String) :
    Client × PyResult AgentIdentity × List Request :=
  let req := registerRequest agent_type runtime_attestation
  let p := registerStep c (node req)
  (p.1, p.2, [req])

/-- `get_identity` (no registration gate). -/
def get_identity (node : Node) (did : String) : PyResult JsonVal × List Request :=
  call node { method := "GET", path := "/identity/" ++ did, body := none, params := none } .ok

/-- `create_capability`. -/
def create_capability (c : Client) (node : Node) (subject : JsonVal)
    (constraints : Option (List JsonVal)) (delegatable : Bool) :
    PyResult CapabilityHandle × List Request :=
  guard c fun ident =>
    call node
      { method := "POST", path := "/capability/create",
        body := some (.obj
          [("issuer_did", .str ident.did),
           ("signing_key_hex", optStrJson c.signing_key_hex),
           ("subject", subject),
           ("constraints", .arr (constraints.getD [])),
           ("delegatable", .bool delegatable)]),
        params := none }
      (pydantic parseCapabilityHandle)

/-- `delegate`. -/
def delegate (c : Client) (node : Node) (capability_id_hex to_did : String) :
    PyResult JsonVal × List Request :=
  guard c fun ident =>
    call node
      { method := "POST", path := "/capability/delegate",
        body := some (.obj
          [("capability_id_hex", .str capability_id_hex),
           ("delegator_did", .str ident.did),
           ("delegator_sk_hex", optStrJson c.signing_key_hex),
           ("delegatee_did", .str to_did)]),
        params := none }
      .ok

/-- `invoke`: returns `response.get("success", False)`. -/
def invoke (c : Client) (node : Node) (capability_id_hex : String) :
    PyResult JsonVal × List Request :=
  guard c fun ident =>
    call node
      { method := "POST", path := "/capability/invoke",
        body := some (.obj
          [("capability_id_hex", .str capability_id_hex),
           ("invoker_did", .str ident.did)]),
        params := none }
      (fun j => .ok (pyGetD j "success" (.bool false)))

/-- `revoke`: returns `response.get("success", False)`. -/
def revoke (c : Client) (node : Node) (capability_id_hex scope : String) :
    PyResult JsonVal × List Request :=
  guard c fun ident =>
    call node
      { method := "POST", path := "/capability/revoke",
        body := some (.obj
          [("capability_id_hex", .str capability_id_hex),
           ("revoker_did", .str ident.did),
           ("scope", .str scope)]),
        params := none }
      (fun j => .ok (pyGetD j "success" (.bool false)))

/-- `get_capability` (no registration gate). -/
def get_capability (node : Node) (capability_id_hex : String) :
    PyResult JsonVal × List Request :=
  call node { method := "GET", path := "/capability/" ++ capability_id_hex,
              body := none, params := none } .ok

/-- `list_capabilities`: returns `response.get("capabilities", [])`. -/
def list_capabilities (c : Client) (node : Node) :
    PyResult JsonVal × List Request :=
  guard c fun ident =>
    call node { method := "GET", path := "/capability/by-did/" ++ ident.did,
                body := none, params := none }
      (fun j => .ok (pyGetD j "capabilities" (.arr [])))

/-- `introduce`: returns `response.get("success", False)`. -/
def introduce (c : Client) (node : Node) (other_did edge_name : String) :
    PyResult JsonVal × List Request :=
  guard c fun ident =>
    call node
      { method := "POST", path := "/introduction",
        body := some (.obj
          [("introducer_did", .str ident.did),
           ("introducer_sk_hex", optStrJson c.signing_key_hex),
           ("introduced_did", .str other_did),
           ("edge_name", .str edge_name)]),
        params := none }
      (fun j => .ok (pyGetD j "success" (.bool false)))

/-- `get_introduction_chain`: returns `response.get("chain", [])`. -/
def get_introduction_chain (c : Client) (node : Node) (to_did : String) :
    PyResult JsonVal × List Request :=
  guard c fun ident =>
    call node { method := "GET",
                path := "/introduction/chain/" ++ ident.did ++ "/" ++ to_did,
                body := none, params := none }
      (fun j => .ok (pyGetD j "chain" (.arr [])))

/-- `coherence`: takes `response.get("profile", response)` and validates
it as a `CoherenceReport`. -/
def coherence (c : Client) (node : Node) : PyResult CoherenceReport × List Request :=
  guard c fun ident =>
    call node { method := "GET", path := "/coherence/" ++ ident.did,
                body := none, params := none }
      (fun j => pydantic parseCoherenceReport (pyGetD j "profile" j))

/-- `peer_coherence` (no registration gate). -/
def peer_coherence (node : Node) (did : String) :
    PyResult CoherenceReport × List Request :=
  call node { method := "GET", path := "/coherence/" ++ did,
              body := none, params := none }
    (fun j => pydantic parseCoherenceReport (pyGetD j "profile" j))

/-- `curvature_with`: returns `response.get("curvature", 0.0)`. -/
def curvature_with (c : Client) (node : Node) (other_did : String) :
    PyResult JsonVal × List Request :=
  guard c fun ident =>
    call node { method := "GET",
                path := "/coherence/curvature/" ++ ident.did ++ "/" ++ other_did,
                body := none, params := none }
      (fun j => .ok (pyGetD j "curvature" (.num 0)))

/-- `neighbors`: returns `response.get("neighbors", [])`. -/
def neighbors (c : Client) (node : Node) : PyResult JsonVal × List Request :=
  guard c fun ident =>
    call node { method := "GET", path := "/coherence/neighbors/" ++ ident.did,
                body := none, params := none }
      (fun j => .ok (pyGetD j "neighbors" (.arr [])))

/-- `curvature_derivative` (no registration gate). -/
def curvature_derivative (node : Node) (did_a did_b : String) (window : Int) :
    PyResult JsonVal × List Request :=
  call node { method := "GET",
              path := "/coherence/gradient/" ++ did_a ++ "/" ++ did_b,
              body := none, params := some (.obj [("window", .int window)]) } .ok

/-- `excitability` (no registration gate). -/
def excitability (node : Node) (did : String) (window : Int) :
    PyResult JsonVal × List Request :=
  call node { method := "GET", path := "/coherence/excitability/" ++ did,
              body := none, params := some (.obj [("window", .int window)]) } .ok

/-- `gradient_map` (no registration gate). -/
def gradient_map (node : Node) (top_n window : Int) :
    PyResult JsonVal × List Request :=
  call node { method := "GET", path := "/coherence/gradient/map",
              body := none,
              params := some (.obj [("top_n", .int top_n), ("window", .int window)]) } .ok

/-- `name` (assign a petname): the method returns `None` on success. -/
def name (c : Client) (node : Node) (did petname : String) :
    PyResult Unit × List Request :=
  guard c fun _ =>
    call node
      { method := "POST", path := "/petname",
        body := some (.obj [("name", .str petname), ("did", .str did)]),
        params := none }
      (fun _ => .ok ())

/-- `resolve_name`: the one place the SDK catches a classified error —
`except DIDNotFoundError: return None`; a resolved name yields
`response.get("did")`. -/
def resolve_name (c : Client) (node : Node) (petname : String) :
    PyResult (Option JsonVal) × List Request :=
  guard c fun _ =>
    let req : Request := { method := "GET", path := "/petname/" ++ petname,
                           body := none, params := none }
    (match request (node req) with
     | .ok j => .ok (pyGet j "did")
     | .sdkErr (.didNotFound _) => .ok none
     | .sdkErr e => .sdkErr e
     | .pyExc e => .pyExc e, [req])

/-- `propose_agreement`: the `terms` object always carries all three
keys, with `deadline_depth` serialized as `null` when not given. -/
def propose_agreement (c : Client) (node : Node) (consumer_did description : String)
    (success_criteria : List String) (deadline_depth : Option Int) :
    PyResult JsonVal × List Request :=
  guard c fun ident =>
    call node
      { method := "POST", path := "/agreement/propose",
        body := some (.obj
          [("provider_did", .str ident.did),
           ("consumer_did", .str consumer_did),
           ("terms", .obj
             [("description", .str description),
              ("success_criteria", .arr (success_criteria.map .str)),
              ("deadline_depth",
                match deadline_depth with
                | some d => .int d
                | none => .nul)]),
           ("signing_key_hex", optStrJson c.signing_key_hex)]),
        params := none }
      .ok

/-- `accept_agreement`: returns `response.get("success", False)`. -/
def accept_agreement (c : Client) (node : Node) (agreement_id : String) :
    PyResult JsonVal × List Request :=
  guard c fun _ =>
    call node
      { method := "POST", path := "/agreement/accept",
        body := some (.obj
          [("agreement_id", .str agreement_id),
           ("consumer_sk_hex", optStrJson c.signing_key_hex)]),
        params := none }
      (fun j => .ok (pyGetD j "success" (.bool false)))

/-- `complete_agreement`: returns `response.get("success", False)`. -/
def complete_agreement (c : Client) (node : Node) (agreement_id : String)
    (success : Bool) (outcome_hash : String) :
    PyResult JsonVal × List Request :=
  guard c fun _ =>
    call node
      { method := "POST", path := "/agreement/complete",
        body := some (.obj
          [("agreement_id", .str agreement_id),
           ("success", .bool success),
           ("outcome_hash", .str outcome_hash),
           ("signing_key_hex", optStrJson c.signing_key_hex)]),
        params := none }
      (fun j => .ok (pyGetD j "success" (.bool false)))

/-- `list_agreements`: returns `response.get("agreements", [])`. -/
def list_agreements (c : Client) (node : Node) : PyResult JsonVal × List Request :=
  guard c fun ident =>
    call node { method := "GET", path := "/agreement/by-did/" ++ ident.did,
                body := none, params := none }
      (fun j => .ok (pyGetD j "agreements" (.arr [])))

/-- `network_health` (no registration gate). -/
def network_health (node : Node) : PyResult JsonVal × List Request :=
  call node { method := "GET", path := "/network/health",
              body := none, params := none } .ok

/-- `node_status` (no registration gate). -/
def node_status (node : Node) : PyResult JsonVal × List Request :=
  call node { method := "GET", path := "/status", body := none, params := none } .ok

/-- `create_proposal`. -/
def create_proposal (c : Client) (node : Node) (description : String)
    (activation_mass : ℚ) (min_participants expiry_depth : Int) :
    PyResult JsonVal × List Request :=
  guard c fun ident =>
    call node
      { method := "POST", path := "/proposal/create",
        body := some (.obj
          [("initiator_did", .str ident.did),
           ("signing_key_hex", optStrJson c.signing_key_hex),
           ("description", .str description),
           ("activation_mass", .num activation_mass),
           ("min_participants", .int min_participants),
           ("expiry_depth", .int expiry_depth)]),
        params := none }
      .ok

/-- `join_proposal`. -/
def join_proposal (c : Client) (node : Node) (proposal_id : String) :
    PyResult JsonVal × List Request :=
  guard c fun ident =>
    call node
      { method := "POST", path := "/proposal/join",
        body := some (.obj
          [("proposal_id", .str proposal_id),
           ("joiner_did", .str ident.did),
           ("signing_key_hex", optStrJson c.signing_key_hex)]),
        params := none }
      .ok

/-- `list_proposals`: the query-parameter dict carries `status` only when
a filter is given; returns `response.get("proposals", [])`. -/
def list_proposals (c : Client) (node : Node) (status : Option String) :
    PyResult JsonVal × List Request :=
  guard c fun _ =>
    call node
      { method := "GET", path := "/proposal/list", body := none,
        params := some (match status with
                        | some s => .obj [("status", .str s)]
                        | none => .obj []) }
      (fun j => .ok (pyGetD j "proposals" (.arr [])))

/-- `create_intent`: `capability_ids` joins the payload only when given. -/
def create_intent (c : Client) (node : Node) (description : String)
    (participant_dids : List String) (capability_ids : Option (List String)) :
    PyResult JsonVal × List Request :=
  guard c fun ident =>
    call node
      { method := "POST", path := "/intent/create",
        body := some (.obj
          ([("creator_did", .str ident.did),
            ("signing_key_hex", optStrJson c.signing_key_hex),
            ("description", .str description),
            ("participant_dids", .arr (participant_dids.map .str))] ++
           (match capability_ids with
            | some ids => [("capability_ids", JsonVal.arr (ids.map .str))]
            | none => []))),
        params := none }
      .ok

/-- `join_intent`: `capability_ids` joins the payload only when given. -/
def join_intent (c : Client) (node : Node) (intent_id : String)
    (capability_ids : Option (List String)) :
    PyResult JsonVal × List Request :=
  guard c fun ident =>
    call node
      { method := "POST", path := "/intent/join",
        body := some (.obj
          ([("intent_id", .str intent_id),
            ("joiner_did", .str ident.did),
            ("signing_key_hex", optStrJson c.signing_key_hex)] ++
           (match capability_ids with
            | some ids => [("capability_ids", JsonVal.arr (ids.map .str))]
            | none => []))),
        params := none }
      .ok

/-- `archive_intent`. -/
def archive_intent (c : Client) (node : Node) (intent_id : String) :
    PyResult JsonVal × List Request :=
  guard c fun ident =>
    call node
      { method := "POST", path := "/intent/archive",
        body := some (.obj
          [("intent_id", .str intent_id),
           ("archiver_did", .str ident.did),
           ("signing_key_hex", optStrJson c.signing_key_hex)]),
        params := none }
      .ok

/-- `intent_coherence`. -/
def intent_coherence (c : Client) (node : Node) (intent_id : String) :
    PyResult JsonVal × List Request :=
  guard c fun _ =>
    call node { method := "GET", path := "/intent/" ++ intent_id ++ "/coherence",
                body := none, params := none } .ok

/-- `list_intents`: returns `response.get("intents", [])`. -/
def list_intents (c : Client) (node : Node) (status : Option String) :
    PyResult JsonVal × List Request :=
  guard c fun _ =>
    call node
      { method := "GET", path := "/intent/list", body := none,
        params := some (match status with
                        | some s => .obj [("status", .str s)]
                        | none => .obj []) }
      (fun j => .ok (pyGetD j "intents" (.arr [])))

/-- `query_oracle`. -/
def query_oracle (c : Client) (node : Node) (region : JsonVal)
    (depth_start depth_end : Int) : PyResult JsonVal × List Request :=
  guard c fun _ =>
    call node
      { method := "POST", path := "/oracle/query",
        body := some (.obj
          [("region", region),
           ("depth_start", .int depth_start),
           ("depth_end", .int depth_end)]),
        params := none }
      .ok

/-- `get_distribution` (no registration gate). -/
def get_distribution (node : Node) (distribution_id : String) :
    PyResult JsonVal × List Request :=
  call node { method := "GET", path := "/oracle/distribution/" ++ distribution_id,
              body := none, params := none } .ok

/-- `list_distributions` (no registration gate): returns
`response.get("distributions", [])`. -/
def list_distributions (node : Node) : PyResult JsonVal × List Request :=
  call node { method := "GET", path := "/oracle/distributions",
              body := none, params := none }
    (fun j => .ok (pyGetD j "distributions" (.arr [])))

/-- `pool_status` (no registration gate). -/
def pool_status (node : Node) (pool_id : String) : PyResult JsonVal × List Request :=
  call node { method := "GET", path := "/pool/" ++ pool_id,
              body := none, params := none } .ok

/-- `pool_claim`. -/
def pool_claim (c : Client) (node : Node) (pool_id distribution_id : String) :
    PyResult JsonVal × List Request :=
  guard c fun ident =>
    call node
      { method := "POST", path := "/pool/claim",
        body := some (.obj
          [("pool_id", .str pool_id),
           ("distribution_id", .str distribution_id),
           ("claimant_did", .str ident.did),
           ("signing_key_hex", optStrJson c.signing_key_hex)]),
        params := none }
      .ok

/-- `create_pool`. -/
def create_pool (c : Client) (node : Node) (poolName description : String) :
    PyResult JsonVal × List Request :=
  guard c fun ident =>
    call node
      { method := "POST", path := "/pool/create",
        body := some (.obj
          [("name", .str poolName),
           ("description", .str description),
           ("creator_did", .str ident.did),
           ("signing_key_hex", optStrJson c.signing_key_hex)]),
        params := none }
      .ok

/-- `pool_deposit`. -/
def pool_deposit (c : Client) (node : Node) (pool_id : String) (amount : ℚ)
    (source : String) : PyResult JsonVal × List Request :=
  guard c fun ident =>
    call node
      { method := "POST", path := "/pool/deposit",
        body := some (.obj
          [("pool_id", .str pool_id),
           ("amount", .num amount),
           ("source", .str source),
           ("depositor_did", .str ident.did),
           ("signing_key_hex", optStrJson c.signing_key_hex)]),
        params := none }
      .ok

/-- `pool_distribute`. -/
def pool_distribute (c : Client) (node : Node) (pool_id distribution_id : String) :
    PyResult JsonVal × List Request :=
  guard c fun ident =>
    call node
      { method := "POST", path := "/pool/distribute",
        body := some (.obj
          [("pool_id", .str pool_id),
           ("distribution_id", .str distribution_id),
           ("initiator_did", .str ident.did),
           ("signing_key_hex", optStrJson c.signing_key_hex)]),
        params := none }
      .ok

/-- `pool_claims` (no registration gate): returns
`response.get("claims", [])`. -/
def pool_claims (node : Node) (pool_id : String) : PyResult JsonVal × List Request :=
  call node { method := "GET", path := "/pool/" ++ pool_id ++ "/claims",
              body := none, params := none }
    (fun j => .ok (pyGetD j "claims" (.arr [])))

/-- `neighborhoods` (no registration gate): returns
`response.get("neighborhoods", [])`. -/
def neighborhoods (node : Node) : PyResult JsonVal × List Request :=
  call node { method := "GET", path := "/topology/neighborhoods",
              body := none, params := none }
    (fun j => .ok (pyGetD j "neighborhoods" (.arr [])))

/-- The query parameters built by `watch`: always `did`; `topics` only
when the argument is truthy (a non-empty list), comma-joined. -/
def watchParams (did : String) (topics : Option (List String)) : JsonVal :=
  match topics with
  | some ts =>
      if ts.isEmpty then .obj [("did", .str did)]
      else .obj [("did", .str did), ("topics", .str (String.intercalate "," ts))]
  | none => .obj [("did", .str did)]

/-- The streaming request `watch` opens. -/
def watchRequest (did : String) (topics : Option (List String)) : Request :=
  { method := "GET", path := "/watch", body := none,
    params := some (watchParams did topics) }

/-- The SSE data marker: the loop recognizes lines that start with the
6 characters of `"data: "`. -/
def dataMarker : List Char := "data: ".data

/-- Python `line.startswith("data: ")`, on the line's characters. -/
def hasDataMarker (l : String) : Bool :=
  dataMarker.isPrefixOf l.data

/-- Python `line[6:]`: the line with its first 6 characters stripped. -/
def stripMarker (l : String) : String :=
  String.mk (l.data.drop 6)

/-- The read loop of `watch` over the framed lines: a line starting with
the marker `"data: "` has the 6-character marker stripped and the rest
JSON-decoded; a successful decode is yielded (iterator mode) or passed
to the callback (callback mode); a decode failure or an unmarked line is
skipped and the loop continues.  Returns (yielded, callback calls), each
in wire order.  `json.loads` is external, so the decoder is a parameter. -/
def processLines (decode : String → Option JsonVal) (hasCallback : Bool) :
    List String → List JsonVal × List JsonVal
  | [] => ([], [])
  | l :: ls =>
    let rest := processLines decode hasCallback ls
    if hasDataMarker l then
      match decode (stripMarker l) with
      | some e =>
          if hasCallback then (rest.1, e :: rest.2) else (e :: rest.1, rest.2)
      | none => rest
    else rest

/-- How the long-lived streaming exchange unfolds: a fault while opening
the connection, or an accepted response (status, framed lines received,
and how the stream ends). -/
inductive StreamEnd where
  | closed : StreamEnd
  | fault : TransportFault → StreamEnd

/-- Outcome of the streaming request issued by `watch`. -/
inductive StreamResult where
  | openFault : TransportFault → StreamResult
  | opened : Nat → List String → StreamEnd → StreamResult

/-- Everything one complete execution of the `watch` body produces:
the events yielded to the iterator consumer, the events passed to the
callback, and how the body terminates. -/
structure WatchRun where
  yielded : List JsonVal
  callbackCalls : List JsonVal
  result : PyResult Unit

/-- The value a call to `watch` produces.  `watch` contains a `yield`
statement, so in Python it is a generator function: the call itself runs
none of the body — not the registration check, not the request, not the
callback loop — and immediately returns a generator object capturing the
arguments. -/
structure WatchGen where
  client : Client
  topics : Option (List String)
  hasCallback : Bool

/-- Embedding of calling `DisentangleAgent.watch` (client.py lines
759-828): because the function body contains `yield`, the call builds a
generator and returns it at once, whatever the session state. -/
def watch (c : Client) (topics : Option (List String)) (hasCallback : Bool) : WatchGen :=
  { client := c, topics := topics, hasCallback := hasCallback }

/-- Embedding of the `watch` body — the code that runs only once the
returned generator is driven: the registration gate, then the streaming
request; `response.raise_for_status()` turns a non-2xx status into an
`httpx.HTTPStatusError` caught by the `except httpx.HTTPError` clause;
then the read loop over the received lines; a clean remote close ends
the body normally, and a transport fault during the read loop is
classified as `NodeConnectionError` after the events already delivered. -/
def watchBody (c : Client) (hasCallback : Bool) (decode : String → Option JsonVal)
    (stream : StreamResult) : WatchRun :=
  match c.identity with
  | none => { yielded := [], callbackCalls := [],
              result := .sdkErr (.notRegistered notRegisteredMsg) }
  | some _ =>
    match stream with
    | .openFault f =>
        { yielded := [], callbackCalls := [], result := .sdkErr (classifyFault f) }
    | .opened status lines ending =>
      if isSuccess status then
        let p := processLines decode hasCallback lines
        { yielded := p.1, callbackCalls := p.2,
          result := match ending with
                    | .closed => .ok ()
                    | .fault f => .sdkErr (classifyFault f) }
      else
        { yielded := [], callbackCalls := [],
          result := .sdkErr (classifyFault (.other "HTTPStatusError")) }

/-- Driving the generator returned by `watch` to exhaustion runs the
suspended body. -/
def WatchGen.drive (g : WatchGen) (decode : String → Option JsonVal)
    (stream : StreamResult) : WatchRun :=
  watchBody g.client g.hasCallback decode stream

/-- The transport binding's timeout: `__init__` builds
`httpx.Client(base_url=node_url, timeout=30.0)` (client.py line 38). -/
def clientTimeout : Option ℚ := some 30

/-- `watch` opens its stream through `self._client.stream(...)` with no
per-request timeout override, so the stream reads under the client's
configured timeout. -/
def watchStreamTimeout : Option ℚ := clientTimeout

/-- httpx read-timeout semantics: waiting `gap` seconds for the next
line trips the timeout exactly when a finite timeout is configured and
the gap exceeds it; with `timeout=None` it never trips. -/
def gapTimesOut (t : Option ℚ) (gap : ℚ) : Bool :=
  match t with
  | none => false
  | some lim => decide (lim < gap)

/-- A wire schedule: each line is preceded by a silent gap of the given
length in seconds.  Under timeout `t` the consumer receives the lines up
to the first gap that trips the timeout; that trip ends the stream with
an `httpx` timeout fault, a schedule with no trip ends with the remote
close. -/
def streamFromGaps (t : Option ℚ) : List (ℚ × String) → List String × StreamEnd
  | [] => ([], .closed)
  | (g, l) :: rest =>
      if gapTimesOut t g then ([], .fault (.timeout "read timeout"))
      else
        let p := streamFromGaps t rest
        (l :: p.1, p.2)

/-- A `watch` run against a wire schedule with gaps, under the timeout
the watch stream actually uses. -/
def watchWithGaps (c : Client) (hasCallback : Bool)
    (decode : String → Option JsonVal) (sched : List (ℚ × String)) : WatchRun :=
  let p := streamFromGaps watchStreamTimeout sched
  watchBody c hasCallback decode (.opened 200 p.1 p.2)

/-- One step of a client's lifetime, as far as session state goes: a
`register` call whose exchange had the given outcome, or any of the
other methods (none of which assigns `_identity` or
`_signing_key_hex`). -/
inductive ClientOp where
  | registerOp : HttpOutcome → ClientOp
  | otherOp : ClientOp

/-- Session-state effect of one operation. -/
def stepClient (c : Client) : ClientOp → Client
  | .registerOp out => (registerStep c out).1
  | .otherOp => c

/-- The session state after a lifetime of operations, starting from
construction. -/
def runTrace (ops : List ClientOp) : Client :=
  ops.foldl stepClient initClient

/-- A node that answers every request with the same outcome. -/
def constNode (out : HttpOutcome) : Node := fun _ => out

/-- A concrete registered client, for witnesses and counterexamples. -/
def ident0 : AgentIdentity :=
  { did := "did:disentangle:alice", signing_key_hex := "deadbeef", document := .obj [] }

/-- A client whose session state holds `ident0`. -/
def client0 : Client :=
  { identity := some ident0, signing_key_hex := some "deadbeef" }

/-- A concrete stand-in for `json.loads` on event payloads: two
recognized payload strings, everything else fails to decode. -/
def decode0 : String → Option JsonVal := fun s =>
  if s = "evt-one" then some (.str "one")
  else if s = "evt-two" then some (.str "two")
  else none

/-- C1: for every completed exchange, the error raised by the request
codec is a pure function of the status code and the parsed body: 404
raises `DIDNotFoundError` with the body's `error` field (default "Not
found"); 403 raises `CapabilityDeniedError`; 400 raises
`DisentangleError` with default message "Bad request"; any other
non-2xx status raises `DisentangleError` with the `error` field or the
synthesized "HTTP status" string; and each kind of transport fault
(connect failure, timeout, other transport error) raises
`NodeConnectionError`.  `request` is a function of the exchange outcome
alone, so the classification cannot depend on call history. -/
theorem C1_error_classification (j : JsonVal) (m : String) :
    request (.response 404 (some j)) =
      .sdkErr (.didNotFound (pyGetD j "error" (.str "Not found"))) ∧
    request (.response 403 (some j)) =
      .sdkErr (.capabilityDenied (pyGetD j "error" (.str "Forbidden"))
        (pyGet j "coherence_score")) ∧
    request (.response 400 (some j)) =
      .sdkErr (.disentangle (pyGetD j "error" (.str "Bad request"))) ∧
    (∀ s : Nat, isSuccess s = false → s ≠ 404 → s ≠ 403 → s ≠ 400 →
      request (.response s (some j)) =
        .sdkErr (.disentangle (pyGetD j "error" (.str ("HTTP " ++ toString s))))) ∧
    request (.fault (.connect m)) =
      .sdkErr (.nodeConnection ("Cannot connect to node: " ++ m)) ∧
    request (.fault (.timeout m)) =
      .sdkErr (.nodeConnection ("Request timeout: " ++ m)) ∧
    request (.fault (.other m)) =
      .sdkErr (.nodeConnection ("HTTP error: " ++ m)) := by
  refine ⟨rfl, rfl, rfl, ?_, rfl, rfl, rfl⟩
  intro s hs h404 h403 h400
  simp [request, withJson, h404, h403, h400, hs]

/-- C1 witness: the general-status clause at status 500 and an empty
body object. -/
theorem C1_error_classification_witness :
    request (.response 500 (some (.obj []))) =
      .sdkErr (.disentangle (pyGetD (.obj []) "error" (.str ("HTTP " ++ toString 500)))) :=
  (C1_error_classification (.obj []) "x").2.2.2.1 500 (by decide) (by decide)
    (by decide) (by decide)

/-- C2: the classification is NOT total.  When the response body fails
JSON decoding, `response.json()` raises a `json.JSONDecodeError`, which
is not an `httpx.HTTPError` and is caught by none of `_request`'s
`except` clauses: for a 2xx response with an undecodable body the codec
raises that unclassified exception instead of the Protocol variant the
spec requires, and for a 404 with an undecodable body the same
unclassified exception escapes before `DIDNotFoundError` can be built. -/
theorem C2_decode_failure_escapes_unclassified :
    request (.response 200 none) = .pyExc "json.JSONDecodeError" ∧
    request (.response 404 none) = .pyExc "json.JSONDecodeError" ∧
    request (.response 500 none) = .pyExc "json.JSONDecodeError" := by
  refine ⟨rfl, rfl, ?_⟩
  simp [request, withJson, isSuccess]

/-- C8: a 403 response with a decoded body raises `CapabilityDeniedError`
whose message is the body's `error` field (default "Forbidden") and whose
`coherence_score` is exactly the body's `coherence_score` field — the
optional value when the field is present, and `None` when it is absent,
never a fabricated numeric default. -/
theorem C8_denied_score (j : JsonVal) :
    request (.response 403 (some j)) =
      .sdkErr (.capabilityDenied (pyGetD j "error" (.str "Forbidden"))
        (pyGet j "coherence_score")) ∧
    (pyGet j "coherence_score" = none →
      request (.response 403 (some j)) =
        .sdkErr (.capabilityDenied (pyGetD j "error" (.str "Forbidden")) none)) ∧
    (∀ v, pyGet j "coherence_score" = some v →
      request (.response 403 (some j)) =
        .sdkErr (.capabilityDenied (pyGetD j "error" (.str "Forbidden")) (some v))) := by
  refine ⟨rfl, ?_, ?_⟩
  · intro h
    simp [request, withJson, h]
  · intro v h
    simp [request, withJson, h]

/-- C8 witness: a 403 body carrying an error message and a score 1/10,
and a 403 body carrying neither. -/
theorem C8_denied_score_witness :
    request (.response 403 (some (.obj
        [("error", .str "coherence too low"), ("coherence_score", .num (1/10))]))) =
      .sdkErr (.capabilityDenied
        (pyGetD (.obj [("error", .str "coherence too low"),
                       ("coherence_score", .num (1/10))]) "error" (.str "Forbidden"))
        (some (.num (1/10)))) ∧
    request (.response 403 (some (.obj []))) =
      .sdkErr (.capabilityDenied (pyGetD (.obj []) "error" (.str "Forbidden")) none) :=
  ⟨(C8_denied_score (.obj [("error", .str "coherence too low"),
      ("coherence_score", .num (1/10))])).2.2 (.num (1/10)) rfl,
   (C8_denied_score (.obj [])).2.1 rfl⟩

/-- C3: the claimed blocking callback mode does not exist.  `watch` is a
generator function, so calling it with a callback returns a generator
object immediately — the registration check, the streaming request and
the callback loop all stay suspended, and the callback is invoked zero
times by the call itself; the events reach the callback only if the
caller iterates the returned generator, contradicting the documented
"blocks and calls callback, returns None" contract. -/
theorem C3_callback_mode_is_nonblocking_generator :
    watch client0 (some ["agreement"]) true =
      { client := client0, topics := some ["agreement"], hasCallback := true } ∧
    (watch client0 (some ["agreement"]) true).drive decode0
        (.opened 200 ["data: evt-one", "data: evt-two"] .closed) =
      { yielded := [], callbackCalls := [.str "one", .str "two"], result := .ok () } :=
  ⟨rfl, rfl⟩

/-- C4 counterexample: calling `watch` on an unregistered client raises
nothing — being a generator function, the call returns a generator
object at once, so no `NotRegisteredError` is raised at call time. -/
theorem C4_counterexample :
    watch initClient none true =
      { client := initClient, topics := none, hasCallback := true } := rfl

/-- C4 (amended): every identity-scoped method of the operation surface,
called on a client whose session holds no identity, raises
`NotRegisteredError` before any payload is built and with no request
issued (empty request log), for every node behavior; `watch` checks the
same precondition but, being a generator function, raises
`NotRegisteredError` only when the returned generator is first advanced,
not at call time. -/
theorem C4_amended (c : Client) (hc : c.identity = none) :
    (∀ node subject constraints delegatable,
      create_capability c node subject constraints delegatable =
        (.sdkErr (.notRegistered notRegisteredMsg), [])) ∧
    (∀ node cap to_did,
      delegate c node cap to_did = (.sdkErr (.notRegistered notRegisteredMsg), [])) ∧
    (∀ node cap,
      invoke c node cap = (.sdkErr (.notRegistered notRegisteredMsg), [])) ∧
    (∀ node cap scope,
      revoke c node cap scope = (.sdkErr (.notRegistered notRegisteredMsg), [])) ∧
    (∀ node,
      list_capabilities c node = (.sdkErr (.notRegistered notRegisteredMsg), [])) ∧
    (∀ node other edge,
      introduce c node other edge = (.sdkErr (.notRegistered notRegisteredMsg), [])) ∧
    (∀ node to_did,
      get_introduction_chain c node to_did = (.sdkErr (.notRegistered notRegisteredMsg), [])) ∧
    (∀ node,
      coherence c node = (.sdkErr (.notRegistered notRegisteredMsg), [])) ∧
    (∀ node other,
      curvature_with c node other = (.sdkErr (.notRegistered notRegisteredMsg), [])) ∧
    (∀ node,
      neighbors c node = (.sdkErr (.notRegistered notRegisteredMsg), [])) ∧
    (∀ node did petname,
      name c node did petname = (.sdkErr (.notRegistered notRegisteredMsg), [])) ∧
    (∀ node petname,
      resolve_name c node petname = (.sdkErr (.notRegistered notRegisteredMsg), [])) ∧
    (∀ node consumer desc crit dd,
      propose_agreement c node consumer desc crit dd =
        (.sdkErr (.notRegistered notRegisteredMsg), [])) ∧
    (∀ node aid,
      accept_agreement c node aid = (.sdkErr (.notRegistered notRegisteredMsg), [])) ∧
    (∀ node aid ok oh,
      complete_agreement c node aid ok oh = (.sdkErr (.notRegistered notRegisteredMsg), [])) ∧
    (∀ node,
      list_agreements c node = (.sdkErr (.notRegistered notRegisteredMsg), [])) ∧
    (∀ node desc am mp ed,
      create_proposal c node desc am mp ed = (.sdkErr (.notRegistered notRegisteredMsg), [])) ∧
    (∀ node pid,
      join_proposal c node pid = (.sdkErr (.notRegistered notRegisteredMsg), [])) ∧
    (∀ node status,
      list_proposals c node status = (.sdkErr (.notRegistered notRegisteredMsg), [])) ∧
    (∀ node desc pds cids,
      create_intent c node desc pds cids = (.sdkErr (.notRegistered notRegisteredMsg), [])) ∧
    (∀ node iid cids,
      join_intent c node iid cids = (.sdkErr (.notRegistered notRegisteredMsg), [])) ∧
    (∀ node iid,
      archive_intent c node iid = (.sdkErr (.notRegistered notRegisteredMsg), [])) ∧
    (∀ node iid,
      intent_coherence c node iid = (.sdkErr (.notRegistered notRegisteredMsg), [])) ∧
    (∀ node status,
      list_intents c node status = (.sdkErr (.notRegistered notRegisteredMsg), [])) ∧
    (∀ node region ds de,
      query_oracle c node region ds de = (.sdkErr (.notRegistered notRegisteredMsg), [])) ∧
    (∀ node pid did2,
      pool_claim c node pid did2 = (.sdkErr (.notRegistered notRegisteredMsg), [])) ∧
    (∀ node pn desc,
      create_pool c node pn desc = (.sdkErr (.notRegistered notRegisteredMsg), [])) ∧
    (∀ node pid amount source,
      pool_deposit c node pid amount source = (.sdkErr (.notRegistered notRegisteredMsg), [])) ∧
    (∀ node pid did2,
      pool_distribute c node pid did2 = (.sdkErr (.notRegistered notRegisteredMsg), [])) ∧
    (∀ topics cb decode stream,
      (watch c topics cb).drive decode stream =
        { yielded := [], callbackCalls := [],
          result := .sdkErr (.notRegistered notRegisteredMsg) }) := by
  refine ⟨?_, ?_, ?_, ?_, ?_, ?_, ?_, ?_, ?_, ?_, ?_, ?_, ?_, ?_, ?_, ?_, ?_, ?_,
    ?_, ?_, ?_, ?_, ?_, ?_, ?_, ?_, ?_, ?_, ?_, ?_⟩ <;>
  · intros
    simp [create_capability, delegate, invoke, revoke, list_capabilities, introduce,
      get_introduction_chain, coherence, curvature_with, neighbors, name,
      resolve_name, propose_agreement, accept_agreement, complete_agreement,
      list_agreements, create_proposal, join_proposal, list_proposals,
      create_intent, join_intent, archive_intent, intent_coherence, list_intents,
      query_oracle, pool_claim, create_pool, pool_deposit, pool_distribute,
      watch, WatchGen.drive, watchBody, guard, hc]

/-- C4 witness: the first conjunct at a freshly constructed client. -/
theorem C4_amended_witness :
    create_capability initClient (constNode (.response 200 (some (.obj []))))
        (.obj []) none true = (.sdkErr (.notRegistered notRegisteredMsg), []) :=
  (C4_amended initClient rfl).1 (constNode (.response 200 (some (.obj []))))
    (.obj []) none true

/-- Closed form of the iterator-mode read loop: the yielded events are
exactly the successfully decoded payloads of the data-marked lines, in
wire order. -/
theorem processLines_iterator (decode : String → Option JsonVal) (lines : List String) :
    processLines decode false lines =
      (lines.filterMap
        (fun l => if hasDataMarker l then decode (stripMarker l) else none), []) := by
  induction lines with
  | nil => rfl
  | cons l ls ih =>
    simp only [processLines, ih, List.filterMap_cons]
    cases h : hasDataMarker l with
    | false => simp [h]
    | true =>
      cases hd : decode (stripMarker l) with
      | none => simp [h, hd]
      | some e => simp [h, hd]

/-- C5: in iterator mode (no callback), a cleanly closed stream yields
exactly the JSON-decoded payloads of the lines carrying the data marker
whose payload decodes, in input order; unmarked lines and decode
failures are skipped without ending the stream, and the run terminates
normally.  In particular a sequence holding a well-formed data line, a
keepalive comment, a malformed data line and a second well-formed data
line yields exactly the two decoded events in input order. -/
theorem C5_iterator_mode (c : Client) (ident : AgentIdentity)
    (hc : c.identity = some ident) :
    (∀ decode lines,
      watchBody c false decode (.opened 200 lines .closed) =
        { yielded := lines.filterMap
            (fun l => if hasDataMarker l then decode (stripMarker l) else none),
          callbackCalls := [],
          result := .ok () }) ∧
    (∀ decode l1 lk lbad l2 e1 e2,
      hasDataMarker l1 = true → decode (stripMarker l1) = some e1 →
      hasDataMarker lk = false →
      hasDataMarker lbad = true → decode (stripMarker lbad) = none →
      hasDataMarker l2 = true → decode (stripMarker l2) = some e2 →
      (watchBody c false decode (.opened 200 [l1, lk, lbad, l2] .closed)).yielded
        = [e1, e2]) := by
  constructor
  · intro decode lines
    simp [watchBody, hc, isSuccess, processLines_iterator]
  · intro decode l1 lk lbad l2 e1 e2 h1 h1d hk hbad hbadd h2 h2d
    simp [watchBody, hc, isSuccess, processLines_iterator, h1, h1d, hk, hbad,
      hbadd, h2, h2d]

/-- C5 witness: one keepalive comment line, one malformed data line and
two well-formed data lines yield exactly the two decoded events. -/
theorem C5_iterator_mode_witness :
    (watchBody client0 false decode0
        (.opened 200 ["data: evt-one", ": keepalive", "data: bogus", "data: evt-two"]
          .closed)).yielded = [.str "one", .str "two"] :=
  (C5_iterator_mode client0 ident0 rfl).2 decode0 "data: evt-one" ": keepalive"
    "data: bogus" "data: evt-two" (.str "one") (.str "two") rfl rfl rfl rfl rfl rfl rfl

/-- C6 counterexample: on a 2xx response whose decoded body lacks the
expected field, no Protocol error is raised — `curvature_with` returns
the fabricated default `0.0` and `invoke` returns the fabricated default
`False`, because both unwrap with `response.get(key, default)`. -/
theorem C6_counterexample :
    (curvature_with client0 (constNode (.response 200 (some (.obj []))))
        "did:disentangle:bob").1 = .ok (.num 0) ∧
    (invoke client0 (constNode (.response 200 (some (.obj [])))) "cap-01").1
      = .ok (.bool false) := ⟨rfl, rfl⟩

/-- C6 (amended): when the successful (2xx, decoded) response body lacks
the expected field, the unwrapping methods return a fabricated default
instead of raising the Protocol variant: `curvature_with` returns `0.0`
when the body has no `curvature` field, and `invoke` returns `False`
when the body has no `success` field. -/
theorem C6_amended (c : Client) (ident : AgentIdentity) (j : JsonVal)
    (hc : c.identity = some ident)
    (hcurv : pyGet j "curvature" = none) (hsucc : pyGet j "success" = none) :
    (∀ other_did,
      (curvature_with c (constNode (.response 200 (some j))) other_did).1
        = .ok (.num 0)) ∧
    (∀ cap_id,
      (invoke c (constNode (.response 200 (some j))) cap_id).1
        = .ok (.bool false)) := by
  constructor
  · intro other_did
    simp [curvature_with, guard, call, hc, constNode, request, withJson, isSuccess,
      pyGetD, hcurv]
  · intro cap_id
    simp [invoke, guard, call, hc, constNode, request, withJson, isSuccess,
      pyGetD, hsucc]

/-- C6 witness: the amended claim at a concrete registered client and an
empty body object. -/
theorem C6_amended_witness :
    (curvature_with client0 (constNode (.response 200 (some (.obj []))))
        "did:disentangle:carol").1 = .ok (.num 0) :=
  (C6_amended client0 ident0 (.obj []) rfl rfl rfl).1 "did:disentangle:carol"

/-- C7 counterexample: the stream is not free of built-in timeouts.  The
transport binding is constructed with a 30-second timeout and `watch`
does not override it, so a 31-second silence before the first line ends
the read loop with a timeout fault that the consumer raises as
`NodeConnectionError` — a `ConnectionFailure` due purely to elapsed
time, with no remote close and no genuine transport fault. -/
theorem C7_counterexample :
    (watchWithGaps client0 false decode0 [((31 : ℚ), "data: evt-one")]).yielded = [] ∧
    (watchWithGaps client0 false decode0 [((31 : ℚ), "data: evt-one")]).result =
      .sdkErr (.nodeConnection "Request timeout: read timeout") := ⟨rfl, rfl⟩

/-- C7 (amended): once streaming, the watch read loop runs under the
transport binding's configured 30-second timeout (not under no timeout):
a wire schedule whose every gap stays within 30 seconds delivers all its
lines and ends with the remote close, while any gap exceeding 30 seconds
ends the run with `NodeConnectionError` due to the read timeout. -/
theorem C7_amended (c : Client) (ident : AgentIdentity)
    (hc : c.identity = some ident) :
    watchStreamTimeout = clientTimeout ∧
    clientTimeout = some 30 ∧
    (∀ sched : List (ℚ × String), (∀ p ∈ sched, p.1 ≤ 30) →
      streamFromGaps watchStreamTimeout sched = (sched.map Prod.snd, .closed)) ∧
    (∀ cb decode (g : ℚ) l rest, 30 < g →
      (watchWithGaps c cb decode ((g, l) :: rest)).result =
        .sdkErr (.nodeConnection "Request timeout: read timeout")) := by
  refine ⟨rfl, rfl, ?_, ?_⟩
  · intro sched h
    induction sched with
    | nil => rfl
    | cons p rest ih =>
      obtain ⟨g, l⟩ := p
      have hp : g ≤ 30 := h (g, l) (List.mem_cons_self _ _)
      have hrest : ∀ q ∈ rest, q.1 ≤ 30 := fun q hq => h q (List.mem_cons_of_mem _ hq)
      have ih2 := ih hrest
      simp only [watchStreamTimeout, clientTimeout] at ih2 ⊢
      simp [streamFromGaps, gapTimesOut, not_lt.mpr hp, ih2]
  · intro cb decode g l rest hg
    simp [watchWithGaps, streamFromGaps, gapTimesOut, watchStreamTimeout,
      clientTimeout, hg, watchBody, hc, isSuccess, classifyFault, processLines]

/-- C7 witness: a schedule of one line after 1 second is delivered
whole; a 31-second gap raises the timeout as `NodeConnectionError`. -/
theorem C7_amended_witness :
    streamFromGaps watchStreamTimeout [((1 : ℚ), "data: evt-one")] =
      (["data: evt-one"], .closed) ∧
    (watchWithGaps client0 false decode0 [((31 : ℚ), "data: evt-two")]).result =
      .sdkErr (.nodeConnection "Request timeout: read timeout") :=
  ⟨(C7_amended client0 ident0 rfl).2.2.1 [((1 : ℚ), "data: evt-one")]
      (by intro p hp; simp at hp; rw [hp]; norm_num),
   (C7_amended client0 ident0 rfl).2.2.2 false decode0 31 "data: evt-two" []
      (by norm_num)⟩

/-- C9: `resolve_name` on a registered client degrades a 404 into the
explicit absent value `None` and returns exactly the response's `did`
field on success; and this `NotFound` degradation is the only silent
error recovery in the SDK — `resolve_name` re-raises every classified
error other than `DIDNotFoundError` unmodified, and every other method
of the library (the ungated lookups, `register`, and every
identity-scoped method, including the watch stream's connection phase)
propagates every classified error unmodified to the caller. -/
theorem C9_notfound_degradation :
    (∀ (c : Client) ident petname (j : JsonVal), c.identity = some ident →
      (resolve_name c (constNode (.response 404 (some j))) petname).1 = .ok none) ∧
    (∀ (c : Client) ident petname (j : JsonVal), c.identity = some ident →
      (resolve_name c (constNode (.response 200 (some j))) petname).1
        = .ok (pyGet j "did")) ∧
    (∀ (c : Client) ident petname out e, c.identity = some ident →
      request out = .sdkErr e → (∀ m, e ≠ .didNotFound m) →
      (resolve_name c (constNode out) petname).1 = .sdkErr e) ∧
    (∀ out e, request out = .sdkErr e →
      (∀ did, (get_identity (constNode out) did).1 = .sdkErr e) ∧
      (∀ cid, (get_capability (constNode out) cid).1 = .sdkErr e) ∧
      (∀ did, (peer_coherence (constNode out) did).1 = .sdkErr e) ∧
      (∀ a b w, (curvature_derivative (constNode out) a b w).1 = .sdkErr e) ∧
      (∀ d w, (excitability (constNode out) d w).1 = .sdkErr e) ∧
      (∀ t w, (gradient_map (constNode out) t w).1 = .sdkErr e) ∧
      (network_health (constNode out)).1 = .sdkErr e ∧
      (node_status (constNode out)).1 = .sdkErr e ∧
      (∀ d, (get_distribution (constNode out) d).1 = .sdkErr e) ∧
      (list_distributions (constNode out)).1 = .sdkErr e ∧
      (∀ p, (pool_status (constNode out) p).1 = .sdkErr e) ∧
      (∀ p, (pool_claims (constNode out) p).1 = .sdkErr e) ∧
      (neighborhoods (constNode out)).1 = .sdkErr e ∧
      (∀ (c : Client) at_ ratt,
        (register c (constNode out) at_ ratt).2.1 = .sdkErr e ∧
        (register c (constNode out) at_ ratt).1 = c)) ∧
    (∀ (c : Client) ident out e, c.identity = some ident →
      request out = .sdkErr e →
      (∀ s cs d, (create_capability c (constNode out) s cs d).1 = .sdkErr e) ∧
      (∀ a b, (delegate c (constNode out) a b).1 = .sdkErr e) ∧
      (∀ a, (invoke c (constNode out) a).1 = .sdkErr e) ∧
      (∀ a s, (revoke c (constNode out) a s).1 = .sdkErr e) ∧
      (list_capabilities c (constNode out)).1 = .sdkErr e ∧
      (∀ o en, (introduce c (constNode out) o en).1 = .sdkErr e) ∧
      (∀ t, (get_introduction_chain c (constNode out) t).1 = .sdkErr e) ∧
      (coherence c (constNode out)).1 = .sdkErr e ∧
      (∀ o, (curvature_with c (constNode out) o).1 = .sdkErr e) ∧
      (neighbors c (constNode out)).1 = .sdkErr e ∧
      (∀ d p, (name c (constNode out) d p).1 = .sdkErr e) ∧
      (∀ cd de sc dd, (propose_agreement c (constNode out) cd de sc dd).1 = .sdkErr e) ∧
      (∀ a, (accept_agreement c (constNode out) a).1 = .sdkErr e) ∧
      (∀ a ok oh, (complete_agreement c (constNode out) a ok oh).1 = .sdkErr e) ∧
      (list_agreements c (constNode out)).1 = .sdkErr e ∧
      (∀ d am mp ed, (create_proposal c (constNode out) d am mp ed).1 = .sdkErr e) ∧
      (∀ p, (join_proposal c (constNode out) p).1 = .sdkErr e) ∧
      (∀ st, (list_proposals c (constNode out) st).1 = .sdkErr e) ∧
      (∀ d pd ci, (create_intent c (constNode out) d pd ci).1 = .sdkErr e) ∧
      (∀ i ci, (join_intent c (constNode out) i ci).1 = .sdkErr e) ∧
      (∀ i, (archive_intent c (constNode out) i).1 = .sdkErr e) ∧
      (∀ i, (intent_coherence c (constNode out) i).1 = .sdkErr e) ∧
      (∀ st, (list_intents c (constNode out) st).1 = .sdkErr e) ∧
      (∀ r ds de, (query_oracle c (constNode out) r ds de).1 = .sdkErr e) ∧
      (∀ p d, (pool_claim c (constNode out) p d).1 = .sdkErr e) ∧
      (∀ n d, (create_pool c (constNode out) n d).1 = .sdkErr e) ∧
      (∀ p a s, (pool_deposit c (constNode out) p a s).1 = .sdkErr e) ∧
      (∀ p d, (pool_distribute c (constNode out) p d).1 = .sdkErr e) ∧
      (∀ cb decode f, (watchBody c cb decode (.openFault f)).result =
        .sdkErr (classifyFault f))) := by
  refine ⟨?_, ?_, ?_, ?_, ?_⟩
  · intro c ident petname j hc
    simp [resolve_name, guard, hc, constNode, request, withJson]
  · intro c ident petname j hc
    simp [resolve_name, guard, hc, constNode, request, withJson, isSuccess]
  · intro c ident petname out e hc herr hne
    cases e <;>
      first
        | exact absurd rfl (hne _)
        | simp [resolve_name, guard, hc, constNode, herr]
  · intro out e herr
    refine ⟨?_, ?_, ?_, ?_, ?_, ?_, ?_, ?_, ?_, ?_, ?_, ?_, ?_, ?_⟩ <;>
    · intros
      simp [get_identity, get_capability, peer_coherence, curvature_derivative,
        excitability, gradient_map, network_health, node_status, get_distribution,
        list_distributions, pool_status, pool_claims, neighborhoods, register,
        registerStep, call, constNode, herr]
  · intro c ident out e hc herr
    refine ⟨?_, ?_, ?_, ?_, ?_, ?_, ?_, ?_, ?_, ?_, ?_, ?_, ?_, ?_, ?_, ?_, ?_,
      ?_, ?_, ?_, ?_, ?_, ?_, ?_, ?_, ?_, ?_, ?_, ?_⟩ <;>
    · intros
      simp [create_capability, delegate, invoke, revoke, list_capabilities,
        introduce, get_introduction_chain, coherence, curvature_with, neighbors,
        name, propose_agreement, accept_agreement, complete_agreement,
        list_agreements, create_proposal, join_proposal, list_proposals,
        create_intent, join_intent, archive_intent, intent_coherence,
        list_intents, query_oracle, pool_claim, create_pool, pool_deposit,
        pool_distribute, watchBody, guard, call, constNode, hc, herr]

/-- C9 witness: a registered client resolving an unknown petname (404
with an empty body) gets `None`. -/
theorem C9_notfound_degradation_witness :
    (resolve_name client0 (constNode (.response 404 (some (.obj []))))
        "nonexistent-name").1 = .ok none :=
  C9_notfound_degradation.1 client0 ident0 "nonexistent-name" (.obj []) rfl

/-- One `register` exchange keeps the signing-key slot equal to the
signing key of the stored identity. -/
theorem registerStep_preserves_sync (c : Client) (out : HttpOutcome)
    (h : c.signing_key_hex = c.identity.map AgentIdentity.signing_key_hex) :
    (registerStep c out).1.signing_key_hex =
      ((registerStep c out).1.identity.map AgentIdentity.signing_key_hex) := by
  rcases hr : request out with j | e | e
  · rcases hp : parseAgentIdentity j with _ | ident
    · simp [registerStep, hr, hp, h]
    · simp [registerStep, hr, hp]
  · simp [registerStep, hr, h]
  · simp [registerStep, hr, h]

/-- The signing-key/identity synchronisation is preserved along any
sequence of operations. -/
theorem foldl_sync (ops : List ClientOp) :
    ∀ c : Client, c.signing_key_hex = c.identity.map AgentIdentity.signing_key_hex →
      (ops.foldl stepClient c).signing_key_hex =
        ((ops.foldl stepClient c).identity.map AgentIdentity.signing_key_hex) := by
  induction ops with
  | nil => intro c h; simpa using h
  | cons op rest ih =>
    intro c h
    rw [List.foldl_cons]
    cases op with
    | registerOp out => exact ih _ (registerStep_preserves_sync c out h)
    | otherOp => exact ih _ h

/-- C10: session-state invariant.  At construction both session slots
are empty; along every lifetime of operations (in which only `register`
assigns the slots) the stored signing credential is exactly the signing
key of the stored identity — in particular `_identity` is `None` iff
`_signing_key_hex` is `None`; a `register` whose exchange yields a
decoded body that validates as an `AgentIdentity` overwrites both slots
from that same response; and a `register` that fails — classified error,
undecodable body, or body failing identity validation — leaves the
session state exactly as it was. -/
theorem C10_session_invariant :
    (initClient.identity = none ∧ initClient.signing_key_hex = none) ∧
    (∀ ops, (runTrace ops).signing_key_hex =
      ((runTrace ops).identity.map AgentIdentity.signing_key_hex)) ∧
    (∀ ops, (runTrace ops).identity = none ↔ (runTrace ops).signing_key_hex = none) ∧
    (∀ (c : Client) out j ident,
      request out = .ok j → parseAgentIdentity j = some ident →
      registerStep c out =
        ({ identity := some ident, signing_key_hex := some ident.signing_key_hex },
         .ok ident)) ∧
    (∀ (c : Client) out j,
      request out = .ok j → parseAgentIdentity j = none →
      registerStep c out = (c, .pyExc "pydantic.ValidationError")) ∧
    (∀ (c : Client) out e,
      request out = .sdkErr e → registerStep c out = (c, .sdkErr e)) ∧
    (∀ (c : Client) out e,
      request out = .pyExc e → registerStep c out = (c, .pyExc e)) := by
  refine ⟨⟨rfl, rfl⟩, ?_, ?_, ?_, ?_, ?_, ?_⟩
  · intro ops
    exact foldl_sync ops initClient rfl
  · intro ops
    have h := foldl_sync ops initClient rfl
    rw [runTrace] at *
    rw [h]
    cases (ops.foldl stepClient initClient).identity <;> simp
  · intro c out j ident hr hp
    simp [registerStep, hr, hp]
  · intro c out j hr hp
    simp [registerStep, hr, hp]
  · intro c out e hr
    simp [registerStep, hr]
  · intro c out e hr
    simp [registerStep, hr]

/-- C10 witness: a register exchange delivering a valid identity body
overwrites both slots from that response; a 500-classified exchange
leaves a fresh client unchanged. -/
theorem C10_session_invariant_witness :
    registerStep initClient (.response 200 (some (.obj
        [("did", .str "did:disentangle:w"), ("signing_key_hex", .str "k1"),
         ("document", .obj [])]))) =
      ({ identity := some { did := "did:disentangle:w", signing_key_hex := "k1",
                            document := .obj [] },
         signing_key_hex := some "k1" },
       .ok { did := "did:disentangle:w", signing_key_hex := "k1",
             document := .obj [] }) ∧
    registerStep initClient (.response 500 (some (.obj []))) =
      (initClient, .sdkErr (.disentangle (.str "HTTP 500"))) :=
  ⟨(C10_session_invariant.2.2.2.1 initClient
      (.response 200 (some (.obj
        [("did", .str "did:disentangle:w"), ("signing_key_hex", .str "k1"),
         ("document", .obj [])])))
      (.obj [("did", .str "did:disentangle:w"), ("signing_key_hex", .str "k1"),
             ("document", .obj [])])
      { did := "did:disentangle:w", signing_key_hex := "k1", document := .obj [] }
      rfl rfl),
   (C10_session_invariant.2.2.2.2.2.1 initClient (.response 500 (some (.obj [])))
      (.disentangle (.str "HTTP 500")) rfl)⟩

end DisentangleSdk
